import Mathlib

/-!
Verification development for the pharmacists-scheduler repository.

This file shallowly embeds the two core subsystems of the repository:

* the schema validation / version migration engine
  (`src/schemas/saveData.ts` together with the bundled migrations module),
* the constraint & fairness engine
  (`checkViolations` in `src/app/page.tsx` and the schedule utilities
  `getRequiredShifts` / `calculateStats`).

Parsed JSON documents are modelled by the inductive type `Json`; JavaScript
objects become association lists in key-insertion order.  JavaScript numbers
appearing in the migration engine are modelled by `Option Int`, with `none`
standing for `NaN` (all version numerals in the registry are small decimal
integers, for which JS `Number` coincides with the natural-number reading).
Wall-clock dependent checks (the six-month staleness warning) are modelled by
an oracle `isStale : String → Bool` supplied by the caller, since the source
compares `savedAt` against `new Date()`.
-/

set_option maxRecDepth 100000

namespace PharmSched

/-- Parsed JSON values (the result of `JSON.parse`).  Objects are modelled as
association lists of string keys in insertion order; parsed JSON never has
duplicate keys. -/
inductive Json where
  | null : Json
  | bool (b : Bool) : Json
  | num (n : Int) : Json
  | str (s : String) : Json
  | arr (elems : List Json) : Json
  | obj (fields : List (String × Json)) : Json
  deriving Repr, Inhabited

/-- Field access `data[key]` on a JavaScript object (`undefined` becomes
`none`). -/
def lookupField (kvs : List (String × Json)) (key : String) : Option Json :=
  match kvs.find? (fun kv => kv.1 == key) with
  | some kv => some kv.2
  | none => none

/-- The JavaScript spread-with-override `{...data, key: v}`: an existing key
keeps its position and gets the new value, a fresh key is appended at the
end. -/
def setField (kvs : List (String × Json)) (key : String) (v : Json) :
    List (String × Json) :=
  if kvs.any (fun kv => kv.1 == key) then
    kvs.map (fun kv => if kv.1 == key then (kv.1, v) else kv)
  else
    kvs ++ [(key, v)]

/-! ### Version parsing (`parseVersion`, `compareVersions`) -/

/-- A JavaScript number as it occurs in the version comparison: a finite
IEEE-754 double (whose exact value is stored as an integer — every value
that arises here is an integer-valued double), positive or negative
Infinity, or NaN. -/
inductive JsNum where
  | finite (n : Int) : JsNum
  | inf : JsNum
  | negInf : JsNum
  | nan : JsNum
  deriving Repr, DecidableEq

/-- The smallest magnitude that rounds to Infinity under round-to-nearest:
`2^1024 - 2^970`. -/
def doubleOverflow : Nat := 2 ^ 1024 - 2 ^ 970

/-- Round a non-negative integer to the nearest IEEE-754 double
(round-half-to-even), as JS `Number` does when converting digit strings:
values up to `2^53` are exact, larger values are rounded to 53 bits of
mantissa, and values at or beyond the overflow threshold become
Infinity. -/
def roundToDouble (n : Nat) : JsNum :=
  if n ≤ 2 ^ 53 then JsNum.finite n
  else if n ≥ doubleOverflow then JsNum.inf
  else
    let e := n.log2 - 52
    let q := n / 2 ^ e
    let r := n % 2 ^ e
    let half := 2 ^ (e - 1)
    let q2 :=
      if r > half then q + 1
      else if r < half then q
      else if q % 2 = 0 then q else q + 1
    JsNum.finite (q2 * 2 ^ e)

/-- Signed counterpart of `roundToDouble`. -/
def roundIntToDouble (z : Int) : JsNum :=
  if 0 ≤ z then roundToDouble z.toNat
  else
    match roundToDouble (-z).toNat with
    | JsNum.finite m => JsNum.finite (-m)
    | JsNum.inf => JsNum.negInf
    | x => x

/-- JS `Number(s)` restricted to the strings that occur as version-numeral
pieces: the empty string coerces to `0`, a pure decimal-digit string to the
double nearest its value, anything else to `NaN`.  (JS `Number` also
accepts signs, fractions, exponents and hex, which never occur in
semantic-version pieces and are therefore mapped to `NaN` here.) -/
def jsNumber (s : String) : JsNum :=
  match s.toList with
  | [] => JsNum.finite 0
  | cs =>
    if cs.all Char.isDigit then
      roundToDouble (cs.foldl (fun acc c => 10 * acc + (c.toNat - 48)) 0)
    else JsNum.nan

/-- `VersionInfo` from the migrations module.  Components are JS numbers. -/
structure VersionInfo where
  major : JsNum
  minor : JsNum
  patch : JsNum
  deriving Repr, DecidableEq

/-- JS `String.split` with a single-character separator, on character
lists (an empty input yields `[""]`, like JS). -/
def jsSplit (c : Char) : List Char → List (List Char)
  | [] => [[]]
  | x :: xs =>
    let r := jsSplit c xs
    if x = c then [] :: r
    else
      match r with
      | [] => [[x]]
      | y :: ys => (x :: y) :: ys

/-- `version.split('.')`. -/
def splitDots (s : String) : List String :=
  (jsSplit '.' s.toList).map (fun cs => String.mk cs)

/-- `parseVersion`: split on `'.'`, coerce each piece with `Number`; the
destructuring defaults (`minor = 0`, `patch = 0`) apply only to missing
pieces (the `major = 1` default is unreachable because `split` always
returns at least one piece). -/
def parseVersion (version : String) : VersionInfo :=
  let parts := splitDots version
  { major := jsNumber (parts.getD 0 "")
    minor := if parts.length ≥ 2 then jsNumber (parts.getD 1 "") else JsNum.finite 0
    patch := if parts.length ≥ 3 then jsNumber (parts.getD 2 "") else JsNum.finite 0 }

/-- JS `!==` on numbers: `NaN !== x` is true for every `x` (including
`NaN`); each infinity equals only itself. -/
def jsNeq (a b : JsNum) : Bool :=
  match a, b with
  | JsNum.finite x, JsNum.finite y => x ≠ y
  | JsNum.inf, JsNum.inf => false
  | JsNum.negInf, JsNum.negInf => false
  | JsNum.nan, _ => true
  | _, JsNum.nan => true
  | _, _ => true

/-- JS subtraction on numbers (IEEE-754): any NaN operand gives NaN, like
signed infinities cancel to NaN, and a finite difference is rounded back to
a double. -/
def jsSub (a b : JsNum) : JsNum :=
  match a, b with
  | JsNum.finite x, JsNum.finite y => roundIntToDouble (x - y)
  | JsNum.nan, _ => JsNum.nan
  | _, JsNum.nan => JsNum.nan
  | JsNum.inf, JsNum.inf => JsNum.nan
  | JsNum.negInf, JsNum.negInf => JsNum.nan
  | JsNum.inf, _ => JsNum.inf
  | JsNum.negInf, _ => JsNum.negInf
  | JsNum.finite _, JsNum.inf => JsNum.negInf
  | JsNum.finite _, JsNum.negInf => JsNum.inf

/-- `compareVersions` from the migrations module. -/
def compareVersions (v1 v2 : VersionInfo) : JsNum :=
  if jsNeq v1.major v2.major then jsSub v1.major v2.major
  else if jsNeq v1.minor v2.minor then jsSub v1.minor v2.minor
  else jsSub v1.patch v2.patch

/-- JS `x > 0` (`NaN > 0` and `-Infinity > 0` are false). -/
def gtZero (o : JsNum) : Bool :=
  match o with
  | JsNum.finite z => z > 0
  | JsNum.inf => true
  | _ => false

/-! ### The migration edge table (`migrations`) -/

/-- Migration edge `'1.0.0->1.1.0'`: only rewrites the version field. -/
def migrate_100_110 (kvs : List (String × Json)) : List (String × Json) :=
  setField kvs "version" (Json.str "1.1.0")

/-- Migration edge `'1.1.0->1.2.0'`: rewrites the version field and adds the
default metadata block. -/
def migrate_110_120 (kvs : List (String × Json)) : List (String × Json) :=
  setField (setField kvs "version" (Json.str "1.2.0")) "metadata"
    (Json.obj [("creator", Json.str "unknown"), ("department", Json.str "default")])

/-- Migration edge `'1.0.0->1.2.0'`: the composed shortcut. -/
def migrate_100_120 (kvs : List (String × Json)) : List (String × Json) :=
  migrate_110_120 (migrate_100_110 kvs)

/-- The registry lookup `migrations[from ++ "->" ++ to]`.  The three
registered keys each contain exactly one `"->"` substring, so the
concatenated key determines the `(from, to)` pair uniquely and the lookup is
equivalent to this pair comparison. -/
def findMigration (cv target : String) :
    Option (List (String × Json) → List (String × Json)) :=
  if cv = "1.0.0" ∧ target = "1.1.0" then some migrate_100_110
  else if cv = "1.1.0" ∧ target = "1.2.0" then some migrate_110_120
  else if cv = "1.0.0" ∧ target = "1.2.0" then some migrate_100_120
  else none

/-- Result type of `migrateToLatest`. -/
structure MigrationResult where
  success : Bool
  data : Option Json
  error : Option String
  deriving Repr

/-- `data.version || '1.0.0'`: the declared version field with JS falsiness
(`undefined`, `null`, `false`, `0` and `""` all fall back to `"1.0.0"`).
A truthy non-string value is returned as `none`: for such values the later
`version.split('.')` call throws a `TypeError` that the surrounding
`try`/`catch` turns into a generic migration error.  (This branch is
unreachable from the validation facade, which only invokes migration after
legacy validation has established that the version field is a string.) -/
def versionOrDefault (kvs : List (String × Json)) : Option String :=
  match lookupField kvs "version" with
  | some (Json.str s) => some (if s = "" then "1.0.0" else s)
  | some Json.null => some "1.0.0"
  | some (Json.bool b) => if b then none else some "1.0.0"
  | some (Json.num n) => if n = 0 then some "1.0.0" else none
  | some (Json.arr _) => none
  | some (Json.obj _) => none
  | none => some "1.0.0"

/-- `migrateToLatest` from the migrations module.  The `none` case of
`versionOrDefault` models the caught `TypeError`; the exact exception text
is abstracted and no theorem depends on it. -/
def migrateToLatest (kvs : List (String × Json)) (targetVersion : String) :
    MigrationResult :=
  match versionOrDefault kvs with
  | none =>
    { success := false, data := none, error := some "遷移過程中發生錯誤: TypeError" }
  | some currentVersion =>
    if currentVersion = targetVersion then
      { success := true, data := some (Json.obj kvs), error := none }
    else
      match findMigration currentVersion targetVersion with
      | some f => { success := true, data := some (Json.obj (f kvs)), error := none }
      | none =>
        if gtZero (compareVersions (parseVersion currentVersion) (parseVersion targetVersion)) then
          { success := false, data := none
            error := some ("無法從較新版本 " ++ currentVersion ++ " 降級到 " ++ targetVersion) }
        else if currentVersion = "1.0.0" ∧ targetVersion = "1.2.0" then
          { success := true, data := some (Json.obj (migrate_100_120 kvs)), error := none }
        else
          { success := false, data := none
            error := some ("沒有找到從 " ++ currentVersion ++ " 到 " ++ targetVersion ++ " 的遷移路徑") }

/-! ### Structural checks shared by the per-version legacy schemas -/

/-- `^\d{4}-\d{2}$` (the `MonthKeySchema` regex). -/
def monthKeyOk (s : String) : Bool :=
  match s.toList with
  | [a, b, c, d, e, f, g] =>
    [a, b, c, d].all Char.isDigit && e = '-' && [f, g].all Char.isDigit
  | _ => false

/-- `^\d{4}-\d{2}-\d{2}$` (the `DateKeySchema` regex). -/
def dateKeyOk (s : String) : Bool :=
  match s.toList with
  | [a, b, c, d, e, f, g, h, i, j] =>
    [a, b, c, d].all Char.isDigit && e = '-' && [f, g].all Char.isDigit &&
      h = '-' && [i, j].all Char.isDigit
  | _ => false

/-- Zod's default `z.string().datetime()` check:
`^\d{4}-\d{2}-\d{2}T\d{2}:\d{2}:\d{2}(\.\d+)?Z$`. -/
def datetimeOk (s : String) : Bool :=
  match s.toList with
  | y1 :: y2 :: y3 :: y4 :: '-' :: m1 :: m2 :: '-' :: d1 :: d2 :: 'T' ::
      h1 :: h2 :: ':' :: n1 :: n2 :: ':' :: s1 :: s2 :: rest =>
    [y1, y2, y3, y4, m1, m2, d1, d2, h1, h2, n1, n2, s1, s2].all Char.isDigit &&
      (match rest with
       | ['Z'] => true
       | '.' :: more =>
         more.length ≥ 2 && more.getLast? = some 'Z' && more.dropLast.all Char.isDigit
       | _ => false)
  | _ => false

/-- A required field that must satisfy the given check (a missing field is
invalid, matching Zod's handling of `undefined`). -/
def fieldIs (kvs : List (String × Json)) (key : String) (p : Json → Bool) : Bool :=
  match lookupField kvs key with
  | some j => p j
  | none => false

/-- The shift enumeration of the legacy schemas: `['早','午','晚']`, with
`'加'` additionally allowed from version 1.1.0 on. -/
def legacyShiftOk (allowOvertime : Bool) (s : String) : Bool :=
  s = "早" || s = "午" || s = "晚" || (allowOvertime && s = "加")

/-- `z.record(z.string(), z.record(z.string(), z.array(z.enum(...))))` of the
legacy schemas (keys are unconstrained strings there). -/
def legacyScheduleOk (allowOvertime : Bool) : Json → Bool
  | Json.obj dates =>
    dates.all (fun kv =>
      match kv.2 with
      | Json.obj persons =>
        persons.all (fun pv =>
          match pv.2 with
          | Json.arr shifts =>
            shifts.all (fun sj =>
              match sj with
              | Json.str s => legacyShiftOk allowOvertime s
              | _ => false)
          | _ => false)
      | _ => false)
  | _ => false

/-- `z.record(z.string(), z.string())` (legacy notes: unbounded strings). -/
def legacyNotesOk : Json → Bool
  | Json.obj entries =>
    entries.all (fun kv =>
      match kv.2 with
      | Json.str _ => true
      | _ => false)
  | _ => false

/-- `z.array(z.string()).min(1).max(20)` (legacy pharmacists: no per-name
minimum length). -/
def legacyPharmacistsOk : Json → Bool
  | Json.arr l =>
    l.all (fun e =>
      match e with
      | Json.str _ => true
      | _ => false) && 1 ≤ l.length && l.length ≤ 20
  | _ => false

/-- The fields shared by `SaveDataV1_0_0` / `V1_1_0` / `V1_2_0` (all
non-strict objects, so unknown extra fields are tolerated). -/
def legacyBaseOk (allowOvertime : Bool) (kvs : List (String × Json)) : Bool :=
  fieldIs kvs "version" (fun j => match j with | Json.str _ => true | _ => false) &&
  fieldIs kvs "currentMonth" (fun j => match j with | Json.str s => monthKeyOk s | _ => false) &&
  fieldIs kvs "pharmacists" legacyPharmacistsOk &&
  fieldIs kvs "schedule" (legacyScheduleOk allowOvertime) &&
  fieldIs kvs "notes" legacyNotesOk &&
  fieldIs kvs "savedAt" (fun j => match j with | Json.str s => datetimeOk s | _ => false)

/-- The optional `metadata` block of `SaveDataV1_2_0`: absent is fine; when
present it must be an object whose optional `creator` / `department` fields
are strings (the inner object is non-strict). -/
def metadataOk (kvs : List (String × Json)) : Bool :=
  match lookupField kvs "metadata" with
  | none => true
  | some (Json.obj m) =>
    (match lookupField m "creator" with
     | none => true
     | some (Json.str _) => true
     | some _ => false) &&
    (match lookupField m "department" with
     | none => true
     | some (Json.str _) => true
     | some _ => false)
  | some _ => false

/-- `SaveDataV1_0_0.parse` succeeds (no `'加'` shift). -/
def checkV100 (kvs : List (String × Json)) : Bool := legacyBaseOk false kvs

/-- `SaveDataV1_1_0.parse` succeeds (with `'加'`). -/
def checkV110 (kvs : List (String × Json)) : Bool := legacyBaseOk true kvs

/-- `SaveDataV1_2_0.parse` succeeds (with `'加'` and optional metadata). -/
def checkV120 (kvs : List (String × Json)) : Bool :=
  legacyBaseOk true kvs && metadataOk kvs

/-- Result type of `validateLegacyData`. -/
structure LegacyValidation where
  version : String
  isValid : Bool
  errors : List String
  deriving Repr, DecidableEq

/-- The textual rendering of a Zod parse failure inside `validateLegacyData`
(field path plus Zod message) is abstracted to this single summary entry; no
theorem depends on these strings, only on validity and on the
unsupported-version message, which is modelled exactly. -/
def legacyZodIssues : List String := ["zod validation issues"]

/-- `validateLegacyData` from the migrations module: dispatch on the declared
version (a non-string version field falls back to `"1.0.0"`, whose schema
then rejects it because `version` must be a string). -/
def validateLegacyData (kvs : List (String × Json)) : LegacyValidation :=
  let version := match lookupField kvs "version" with
    | some (Json.str s) => s
    | _ => "1.0.0"
  if version = "1.0.0" then
    if checkV100 kvs then ⟨version, true, []⟩ else ⟨version, false, legacyZodIssues⟩
  else if version = "1.1.0" then
    if checkV110 kvs then ⟨version, true, []⟩ else ⟨version, false, legacyZodIssues⟩
  else if version = "1.2.0" then
    if checkV120 kvs then ⟨version, true, []⟩ else ⟨version, false, legacyZodIssues⟩
  else
    ⟨version, false, ["不支援的版本: " ++ version]⟩

/-! ### The strict current schema (`SaveDataSchema`) -/

/-- The typed document produced by `SaveDataSchema.parse`
(`type SaveData = z.infer<typeof SaveDataSchema>`); the schema declares
exactly these six fields and no metadata block. -/
structure SaveData where
  version : String
  currentMonth : String
  pharmacists : List String
  schedule : List (String × List (String × List String))
  notes : List (String × String)
  savedAt : String
  deriving Repr, DecidableEq

/-- A Zod issue: field path and message. -/
abbrev Issue := List String × String

/-- Zod's name for the received type of a JSON value (used in
`Expected ..., received ...` messages). -/
def typeName : Json → String
  | Json.null => "null"
  | Json.bool _ => "boolean"
  | Json.num _ => "number"
  | Json.str _ => "string"
  | Json.arr _ => "array"
  | Json.obj _ => "object"

/-- `version: z.string().min(1, "版本號不可為空")`. -/
def issuesVersion (kvs : List (String × Json)) : List Issue :=
  match lookupField kvs "version" with
  | none => [(["version"], "Required")]
  | some (Json.str s) => if s.length ≥ 1 then [] else [(["version"], "版本號不可為空")]
  | some j => [(["version"], "Expected string, received " ++ typeName j)]

/-- `currentMonth: MonthKeySchema`. -/
def issuesMonth (kvs : List (String × Json)) : List Issue :=
  match lookupField kvs "currentMonth" with
  | none => [(["currentMonth"], "Required")]
  | some (Json.str s) =>
    if monthKeyOk s then [] else [(["currentMonth"], "月份格式必須為 YYYY-MM")]
  | some j => [(["currentMonth"], "Expected string, received " ++ typeName j)]

/-- `pharmacists: z.array(z.string().min(1)).min(1).max(20)`. -/
def issuesPharmacists (kvs : List (String × Json)) : List Issue :=
  match lookupField kvs "pharmacists" with
  | none => [(["pharmacists"], "Required")]
  | some (Json.arr l) =>
    (l.enum.map (fun ie =>
      match ie.2 with
      | Json.str s =>
        if s.length ≥ 1 then [] else [(["pharmacists", toString ie.1], "藥師姓名不可為空")]
      | j => [(["pharmacists", toString ie.1], "Expected string, received " ++ typeName j)])).flatten ++
    (if l.length < 1 then [(["pharmacists"], "至少需要一位藥師")] else []) ++
    (if l.length > 20 then [(["pharmacists"], "藥師數量不可超過20位")] else [])
  | some j => [(["pharmacists"], "Expected array, received " ++ typeName j)]

/-- The current shift enumeration `ShiftSchema = z.enum(['早','午','晚','加'])`. -/
def shiftOk (s : String) : Bool :=
  s = "早" || s = "午" || s = "晚" || s = "加"

/-- One worker's shift array under `ScheduleSchema`:
`z.array(ShiftSchema).max(4, "每日最多4個班別")`. -/
def issuesShiftArray (path : List String) : Json → List Issue
  | Json.arr shifts =>
    (shifts.enum.map (fun ie =>
      match ie.2 with
      | Json.str s =>
        if shiftOk s then [] else [(path ++ [toString ie.1], "Invalid enum value")]
      | j => [(path ++ [toString ie.1], "Expected string, received " ++ typeName j)])).flatten ++
    (if shifts.length > 4 then [(path, "每日最多4個班別")] else [])
  | j => [(path, "Expected array, received " ++ typeName j)]

/-- `schedule: z.record(DateKeySchema, z.record(z.string().min(1), ...))`. -/
def issuesSchedule (kvs : List (String × Json)) : List Issue :=
  match lookupField kvs "schedule" with
  | none => [(["schedule"], "Required")]
  | some (Json.obj dates) =>
    (dates.map (fun kv =>
      (if dateKeyOk kv.1 then [] else [(["schedule", kv.1], "日期格式必須為 YYYY-MM-DD")]) ++
      match kv.2 with
      | Json.obj persons =>
        (persons.map (fun pv =>
          (if pv.1.length ≥ 1 then [] else [(["schedule", kv.1, pv.1], "藥師姓名不可為空")]) ++
          issuesShiftArray ["schedule", kv.1, pv.1] pv.2)).flatten
      | j => [(["schedule", kv.1], "Expected object, received " ++ typeName j)])).flatten
  | some j => [(["schedule"], "Expected object, received " ++ typeName j)]

/-- `notes: z.record(DateKeySchema, z.string().max(500))`. -/
def issuesNotes (kvs : List (String × Json)) : List Issue :=
  match lookupField kvs "notes" with
  | none => [(["notes"], "Required")]
  | some (Json.obj entries) =>
    (entries.map (fun kv =>
      (if dateKeyOk kv.1 then [] else [(["notes", kv.1], "日期格式必須為 YYYY-MM-DD")]) ++
      match kv.2 with
      | Json.str s => if s.length ≤ 500 then [] else [(["notes", kv.1], "備註長度不可超過500字")]
      | j => [(["notes", kv.1], "Expected string, received " ++ typeName j)])).flatten
  | some j => [(["notes"], "Expected object, received " ++ typeName j)]

/-- `savedAt: z.string().datetime("存檔時間格式錯誤")`. -/
def issuesSavedAt (kvs : List (String × Json)) : List Issue :=
  match lookupField kvs "savedAt" with
  | none => [(["savedAt"], "Required")]
  | some (Json.str s) => if datetimeOk s then [] else [(["savedAt"], "存檔時間格式錯誤")]
  | some j => [(["savedAt"], "Expected string, received " ++ typeName j)]

/-- The declared keys of `SaveDataSchema` (`.strict()` rejects all others). -/
def saveDataKeys : List String :=
  ["version", "currentMonth", "pharmacists", "schedule", "notes", "savedAt"]

/-- The strict-mode check: unrecognized top-level keys are an error. -/
def issuesStrict (kvs : List (String × Json)) : List Issue :=
  let extras := (kvs.map (·.1)).filter (fun k => ¬ saveDataKeys.contains k)
  if extras.isEmpty then []
  else [([], "Unrecognized key(s) in object: " ++ String.intercalate ", " extras)]

/-- All issues raised by `SaveDataSchema.safeParse` on an object. -/
def saveDataIssues (kvs : List (String × Json)) : List Issue :=
  issuesVersion kvs ++ issuesMonth kvs ++ issuesPharmacists kvs ++
    issuesSchedule kvs ++ issuesNotes kvs ++ issuesSavedAt kvs ++ issuesStrict kvs

/-- Reading a validated value back out (only used once the issue list is
empty, in which case every default branch is dead). -/
def asString : Json → String
  | Json.str s => s
  | _ => ""

/-- Schedule extraction for a validated document. -/
def extractSchedule : Json → List (String × List (String × List String))
  | Json.obj dates =>
    dates.map (fun kv =>
      (kv.1,
        match kv.2 with
        | Json.obj persons =>
          persons.map (fun pv =>
            (pv.1,
              match pv.2 with
              | Json.arr l => l.map asString
              | _ => []))
        | _ => []))
  | _ => []

/-- Notes extraction for a validated document. -/
def extractNotes : Json → List (String × String)
  | Json.obj entries => entries.map (fun kv => (kv.1, asString kv.2))
  | _ => []

/-- `SaveDataSchema.safeParse`: either the typed document or the collected
issue list (Zod aggregates all issues). -/
def saveDataSafeParse (data : Json) : Except (List Issue) SaveData :=
  match data with
  | Json.obj kvs =>
    match saveDataIssues kvs with
    | [] =>
      Except.ok
        { version := asString ((lookupField kvs "version").getD Json.null)
          currentMonth := asString ((lookupField kvs "currentMonth").getD Json.null)
          pharmacists :=
            match lookupField kvs "pharmacists" with
            | some (Json.arr l) => l.map asString
            | _ => []
          schedule := extractSchedule ((lookupField kvs "schedule").getD Json.null)
          notes := extractNotes ((lookupField kvs "notes").getD Json.null)
          savedAt := asString ((lookupField kvs "savedAt").getD Json.null) }
    | i :: is => Except.error (i :: is)
  | j => Except.error [([], "Expected object, received " ++ typeName j)]

/-! ### The validation facade (`validateSaveData`) -/

/-- Result type of `validateSaveData`. -/
structure ValidationResult where
  isValid : Bool
  errors : List String
  warnings : List String
  data : Option SaveData
  deriving Repr, DecidableEq

/-- The facade's rendering of a direct-validation issue:
`path.flatten('.') ++ ": " ++ message` when the path is non-empty. -/
def renderIssueWithPath (i : Issue) : String :=
  if i.1.isEmpty then i.2 else String.intercalate "." i.1 ++ ": " ++ i.2

/-- Advisory warning for an empty roster. -/
def emptyScheduleMsg : String := "排班資料為空"

/-- Advisory warning for a stale `savedAt` timestamp (older than six
months). -/
def staleMsg : String := "此存檔已超過6個月，可能與當前版本不完全相容"

/-- The silent-upgrade warning `資料已從版本 X 自動升級到 Y`. -/
def upgradeMsg (fromVersion toVersion : String) : String :=
  "資料已從版本 " ++ fromVersion ++ " 自動升級到 " ++ toVersion

/-- The direct current-schema validation (lines 109-147 of the facade),
including the two advisory warnings.  The six-month staleness comparison
against the wall clock is supplied as the oracle `isStale`. -/
def directValidate (isStale : String → Bool) (data : Json) : ValidationResult :=
  match saveDataSafeParse data with
  | Except.error iss =>
    { isValid := false, errors := iss.map renderIssueWithPath, warnings := [], data := none }
  | Except.ok sd =>
    { isValid := true, errors := []
      warnings :=
        (if sd.schedule.isEmpty then [emptyScheduleMsg] else []) ++
          (if isStale sd.savedAt then [staleMsg] else [])
      data := some sd }

/-- `validateSaveData` from `src/schemas/saveData.ts`.  Note that the
facade's migration target (`targetVersion`) is the string `"1.0.0"`. -/
def validateSaveData (isStale : String → Bool) (data : Json) : ValidationResult :=
  match data with
  | Json.obj kvs =>
    if (lookupField kvs "version").isSome then
      let legacyValidation := validateLegacyData kvs
      if legacyValidation.isValid then
        let currentVersion := match lookupField kvs "version" with
          | some (Json.str s) => s
          | _ => "1.0.0"
        let targetVersion := "1.0.0"
        if currentVersion ≠ targetVersion then
          let migrationResult := migrateToLatest kvs targetVersion
          if migrationResult.success then
            match migrationResult.data with
            | some migrated =>
              match saveDataSafeParse migrated with
              | Except.ok sd =>
                { isValid := true, errors := []
                  warnings := [upgradeMsg currentVersion targetVersion], data := some sd }
              | Except.error iss =>
                { isValid := false
                  errors := ["遷移後資料驗證失敗: " ++ String.intercalate ", " (iss.map (·.2))]
                  warnings := [], data := none }
            | none =>
              { isValid := false
                errors := ["版本遷移失敗: " ++ migrationResult.error.getD "undefined"]
                warnings := [], data := none }
          else
            { isValid := false
              errors := ["版本遷移失敗: " ++ migrationResult.error.getD "undefined"]
              warnings := [], data := none }
        else directValidate isStale data
      else
        { isValid := false
          errors := ["舊版本資料格式錯誤: " ++ String.intercalate ", " legacyValidation.errors]
          warnings := [], data := none }
    else directValidate isStale data
  | _ => directValidate isStale data

/-- Result type of `checkVersionCompatibility`. -/
structure CompatResult where
  compatible : Bool
  message : Option String
  deriving Repr, DecidableEq

/-- `checkVersionCompatibility` from `src/schemas/saveData.ts` (used by the
file-load entrypoint, but never by `validateSaveData`). -/
def checkVersionCompatibility (version : String) : CompatResult :=
  let currentVersion := "1.0.0"
  if version = currentVersion then { compatible := true, message := none }
  else
    let major := (splitDots version).getD 0 ""
    let currentMajor := (splitDots currentVersion).getD 0 ""
    if major ≠ currentMajor then
      { compatible := false
        message := some ("存檔版本 " ++ version ++ " 與當前版本 " ++ currentVersion ++ " 不相容") }
    else
      { compatible := true
        message := some ("存檔版本 " ++ version ++ " 與當前版本 " ++ currentVersion ++ " 相容，但可能有細微差異") }

/-! ### The auto-snapshot slot (`loadAutoSave` / `hasAutoSave`)

The single LocalStorage slot is modelled as an `Option String` (the stored
bytes); `JSON.parse` is supplied as an oracle `parseJson` with `none`
standing for a parse exception. -/

/-- Result type of the load entrypoints. -/
structure LoadResult where
  success : Bool
  data : Option SaveData
  errors : List String
  warnings : List String
  deriving Repr, DecidableEq

/-- `loadAutoSave` from the save/load module: returns the load result
together with the slot contents after the call (a failed parse or failed
validation clears the slot).  The source's guard `if (!saved)` is a JS
falsiness test: it fires both when `getItem` returns `null` (missing slot)
and when the stored string is empty, and in either case it returns the
not-found error without touching the slot. -/
def loadAutoSave (isStale : String → Bool) (parseJson : String → Option Json)
    (slot : Option String) : LoadResult × Option String :=
  match slot with
  | none =>
    ({ success := false, data := none, errors := ["沒有找到自動存檔"], warnings := [] }, none)
  | some s =>
    if s = "" then
      ({ success := false, data := none, errors := ["沒有找到自動存檔"], warnings := [] }, some s)
    else
    match parseJson s with
    | none =>
      ({ success := false, data := none, errors := ["自動存檔讀取失敗並已清除"], warnings := [] },
        none)
    | some j =>
      let validation := validateSaveData isStale j
      if validation.isValid then
        ({ success := true, data := validation.data, errors := [], warnings := validation.warnings },
          some s)
      else
        ({ success := false, data := none, errors := ["自動存檔已損壞並已清除"], warnings := [] },
          none)

/-- `hasAutoSave`: the slot is occupied. -/
def hasAutoSave (slot : Option String) : Bool := slot.isSome

/-! ### Calendar

`getDaysInMonth` enumerates the days of the month of a JS `Date`; the date
keys are produced with `toISOString().split('T')[0]` and day-of-week with
`getDay()` (0 = Sunday).  The embedding works directly with the calendar
triple (year, 1-based month, day); the timezone-dependent UTC shift of
`toISOString` on local-midnight dates is deliberately not modelled. -/

/-- Gregorian leap year. -/
def isLeapYear (y : Nat) : Bool :=
  (y % 4 = 0 && y % 100 ≠ 0) || y % 400 = 0

/-- Number of days in a month (`new Date(year, month + 1, 0).getDate()`). -/
def daysInMonth (y m : Nat) : Nat :=
  if m = 2 then (if isLeapYear y then 29 else 28)
  else if m = 4 ∨ m = 6 ∨ m = 9 ∨ m = 11 then 30
  else 31

/-- The day numbers 1, ..., daysInMonth of the month (`getDaysInMonth`). -/
def daysList (y m : Nat) : List Nat :=
  (List.range (daysInMonth y m)).map (· + 1)

/-- JS `Date.getDay` (0 = Sunday) via Zeller's congruence for the Gregorian
calendar. -/
def dayOfWeek (y m d : Nat) : Nat :=
  let mm := if m ≤ 2 then m + 12 else m
  let yy := if m ≤ 2 then y - 1 else y
  let K := yy % 100
  let J := yy / 100
  let h := (d + (13 * (mm + 1)) / 5 + K + K / 4 + J / 4 + 5 * J) % 7
  (h + 6) % 7

/-- Two-digit zero padding for month and day numerals. -/
def pad2 (n : Nat) : String :=
  if n < 10 then "0" ++ toString n else toString n

/-- The `YYYY-MM-DD` date key of a day
(`day.toISOString().split('T')[0]`). -/
def isoDate (y m d : Nat) : String :=
  toString y ++ "-" ++ pad2 m ++ "-" ++ pad2 d

/-! ### Requirement policy and statistics (`scheduleUtils`) -/

/-- `RequiredShifts` from the schedule types. -/
structure RequiredShifts where
  morning : Nat
  afternoon : Nat
  evening : Nat
  maxPerPerson : Option Nat
  deriving Repr, DecidableEq

/-- `getRequiredShifts`, a function of `date.getDay()` alone; the final
branch covers both `case 0` (Sunday) and the unreachable `default`, which
return the same requirement. -/
def getRequiredShifts (dayOfWeek : Nat) : RequiredShifts :=
  if dayOfWeek = 1 then ⟨2, 2, 2, some 2⟩
  else if dayOfWeek = 2 ∨ dayOfWeek = 3 ∨ dayOfWeek = 4 ∨ dayOfWeek = 5 then ⟨1, 1, 2, none⟩
  else if dayOfWeek = 6 then ⟨2, 1, 1, none⟩
  else ⟨0, 0, 0, none⟩

/-- The in-memory roster: date key to worker name to shift list. -/
abbrev Schedule := List (String × List (String × List String))

/-- Association-list read (JS object property access). -/
def assocGet {α : Type} (l : List (String × α)) (key : String) : Option α :=
  match l.find? (fun kv => kv.1 == key) with
  | some kv => some kv.2
  | none => none

/-- JS object property assignment `o[k] = v` (overwrite in place or append a
fresh key). -/
def assocSet {α : Type} (l : List (String × α)) (key : String) (v : α) :
    List (String × α) :=
  if l.any (fun kv => kv.1 == key) then
    l.map (fun kv => if kv.1 == key then (kv.1, v) else kv)
  else
    l ++ [(key, v)]

/-- In-place mutation `o[k].field++` of an existing entry. -/
def assocUpdate {α : Type} (l : List (String × α)) (key : String) (f : α → α) :
    List (String × α) :=
  l.map (fun kv => if kv.1 == key then (kv.1, f kv.2) else kv)

/-- `PharmacistStats` from the schedule types: the five tracked per-worker
quantities. -/
structure PharmacistStats where
  holidays : Nat
  shifts : Nat
  morningEveningDays : Nat
  mondayHolidays : Nat
  saturdayHolidays : Nat
  deriving Repr, DecidableEq

/-- The uniform initial record of `calculateStats`. -/
def emptyStats : PharmacistStats := ⟨0, 0, 0, 0, 0⟩

/-- One worker's statistics update for one day of the month. -/
def statsDayUpdate (dow : Nat) (shifts : List String) (s : PharmacistStats) :
    PharmacistStats :=
  if shifts.length = 0 then
    { s with
      holidays := s.holidays + 1
      mondayHolidays := if dow = 1 then s.mondayHolidays + 1 else s.mondayHolidays
      saturdayHolidays := if dow = 6 then s.saturdayHolidays + 1 else s.saturdayHolidays }
  else
    { s with
      shifts := s.shifts + shifts.length
      morningEveningDays :=
        if shifts.contains "早" && shifts.contains "晚" then s.morningEveningDays + 1
        else s.morningEveningDays }

/-- `calculateStats` from `scheduleUtils`: initialise a record per worker,
then accumulate over every day of the month (Sundays included). -/
def calculateStats (year month : Nat) (schedule : Schedule)
    (pharmacists : List String) : List (String × PharmacistStats) :=
  let init := pharmacists.foldl (fun acc p => assocSet acc p emptyStats) []
  (daysList year month).foldl
    (fun acc d =>
      let daySchedule := (assocGet schedule (isoDate year month d)).getD []
      let dow := dayOfWeek year month d
      pharmacists.foldl
        (fun acc2 p =>
          assocUpdate acc2 p (statsDayUpdate dow ((assocGet daySchedule p).getD [])))
        acc)
    init

/-! ### The constraint & fairness engine (`checkViolations` in `page.tsx`) -/

/-- The number of listed workers whose entry for the day includes the given
period name (`pharmacists.filter(...).length` in the per-period check). -/
def actualAssigned (daySchedule : List (String × List String))
    (pharmacists : List String) (periodName : String) : Nat :=
  (pharmacists.filter
    (fun p => ((assocGet daySchedule p).getD []).contains periodName)).length

/-- The per-day staffing and Monday-cap checks of `checkViolations` for one
day (Sundays are skipped entirely). -/
def dayViolations (year month d : Nat) (schedule : Schedule)
    (pharmacists : List String) : List String :=
  let dow := dayOfWeek year month d
  if dow = 0 then []
  else
    let daySchedule := (assocGet schedule (isoDate year month d)).getD []
    let required := getRequiredShifts dow
    let staffing :=
      ([("早", required.morning), ("午", required.afternoon), ("晚", required.evening)].map
        (fun pr =>
          if pr.2 > 0 then
            if actualAssigned daySchedule pharmacists pr.1 ≠ pr.2 then
              [toString month ++ "/" ++ toString d ++ " " ++ pr.1 ++ "班人數不符：需要" ++
                toString pr.2 ++ "人，實際" ++
                toString (actualAssigned daySchedule pharmacists pr.1) ++ "人"]
            else []
          else [])).flatten
    let mondayCap :=
      if dow = 1 then
        (pharmacists.map
          (fun p =>
            if ((assocGet daySchedule p).getD []).length > 2 then
              [toString month ++ "/" ++ toString d ++ " " ++ p ++ "超過週一最多兩節限制"]
            else [])).flatten
      else []
    staffing ++ mondayCap

/-- All per-day violations in chronological day order. -/
def perDayViolations (year month : Nat) (schedule : Schedule)
    (pharmacists : List String) : List String :=
  ((daysList year month).map (fun d => dayViolations year month d schedule pharmacists)).flatten

/-- `Object.values(stats).reduce((sum, s) => sum + f s, 0)`. -/
def sumBy (stats : List (String × PharmacistStats)) (f : PharmacistStats → Nat) : Nat :=
  (stats.map (fun kv => f kv.2)).sum

/-- The source's comparison `Math.abs(value - total / 4) > threshold`.  All
intermediate JS doubles there are exact (the totals are small integers and
division by 4 is exact in binary), so the comparison is equivalent to the
integer comparison `|4*value - total| > 4*threshold`, which is the form used
here so that every proof can be checked by evaluation. -/
def deviatesFromQuarter (value total threshold : Nat) : Bool :=
  (4 * (value : Int) - (total : Int)).natAbs > 4 * threshold

/-- The fairness-stage block for one worker.  The source divides each total
by the literal constant `4` (the default roster size), not by the number of
workers. -/
def fairnessFor (stats : List (String × PharmacistStats)) (p : String) : List String :=
  let s := (assocGet stats p).getD emptyStats
  (if deviatesFromQuarter s.holidays (sumBy stats PharmacistStats.holidays) 2 then
    [p ++ "假期天數不平均"] else []) ++
  (if deviatesFromQuarter s.shifts (sumBy stats PharmacistStats.shifts) 3 then
    [p ++ "上班節數不平均"] else []) ++
  (if deviatesFromQuarter s.morningEveningDays (sumBy stats PharmacistStats.morningEveningDays) 1 then
    [p ++ "早晚班天數不平均"] else []) ++
  (if deviatesFromQuarter s.mondayHolidays (sumBy stats PharmacistStats.mondayHolidays) 1 then
    [p ++ "週一假期不平均"] else []) ++
  (if deviatesFromQuarter s.saturdayHolidays (sumBy stats PharmacistStats.saturdayHolidays) 1 then
    [p ++ "週六假期不平均"] else [])

/-- The fairness stage of `checkViolations`, in worker-list order. -/
def fairnessViolations (year month : Nat) (schedule : Schedule)
    (pharmacists : List String) : List String :=
  let stats := calculateStats year month schedule pharmacists
  (pharmacists.map (fairnessFor stats)).flatten

/-- `checkViolations`: per-day violations in chronological order followed by
the fairness violations in worker-list order. -/
def checkViolations (year month : Nat) (schedule : Schedule)
    (pharmacists : List String) : List String :=
  perDayViolations year month schedule pharmacists ++
    fairnessViolations year month schedule pharmacists

/-! ### Spec-side predicates (for comparison with the code) -/

/-- One day of the hypothesis of the empty-violation property: every period
with positive requirement is staffed by exactly the required number of
workers, and on the heavy-staffing weekday (Monday) nobody exceeds the
per-person cap of 2.  Sundays carry no requirement. -/
def dayMeetsRequirements (year month d : Nat) (schedule : Schedule)
    (pharmacists : List String) : Bool :=
  let dow := dayOfWeek year month d
  if dow = 0 then true
  else
    let daySchedule := (assocGet schedule (isoDate year month d)).getD []
    let required := getRequiredShifts dow
    ([("早", required.morning), ("午", required.afternoon), ("晚", required.evening)].all
      (fun pr =>
        pr.2 = 0 || actualAssigned daySchedule pharmacists pr.1 = pr.2)) &&
      (if dow = 1 then
        pharmacists.all (fun p => ((assocGet daySchedule p).getD []).length ≤ 2)
      else true)

/-- The roster meets the exact required headcounts and caps on every
non-Sunday day of the target month. -/
def meetsRequirements (year month : Nat) (schedule : Schedule)
    (pharmacists : List String) : Bool :=
  (daysList year month).all (fun d => dayMeetsRequirements year month d schedule pharmacists)

/-- The spec-side comparison `|value - total / n| > threshold` with `n` the
number of workers, cross-multiplied by the positive `n` into the equivalent
integer comparison `|n*value - total| > n*threshold`. -/
def deviatesFromMean (n value total threshold : Nat) : Bool :=
  ((n : Int) * (value : Int) - (total : Int)).natAbs > n * threshold

/-- Modelled from the spec: a worker's fairness deviation as the spec words
it — one of the five tracked quantities deviates from the arithmetic mean of
that quantity taken across all workers in the list (the total divided by the
number of workers) by strictly more than the thresholds 2, 3, 1, 1, 1.
This is the spec-side counterpart of `fairnessFor`, which divides by the
constant 4 instead of the worker count. -/
def specFairnessDeviates (year month : Nat) (schedule : Schedule)
    (pharmacists : List String) (p : String) : Bool :=
  let stats := calculateStats year month schedule pharmacists
  let n := pharmacists.length
  let s := (assocGet stats p).getD emptyStats
  deviatesFromMean n s.holidays (sumBy stats PharmacistStats.holidays) 2 ||
  deviatesFromMean n s.shifts (sumBy stats PharmacistStats.shifts) 3 ||
  deviatesFromMean n s.morningEveningDays (sumBy stats PharmacistStats.morningEveningDays) 1 ||
  deviatesFromMean n s.mondayHolidays (sumBy stats PharmacistStats.mondayHolidays) 1 ||
  deviatesFromMean n s.saturdayHolidays (sumBy stats PharmacistStats.saturdayHolidays) 1

/-! ### Concrete documents and rosters used by the claims -/

/-- The spec's concrete scenario document, in the source's field names
(the spec writes `period`/`workers`/`roster` for the source fields
`currentMonth`/`pharmacists`/`schedule`). -/
def scenarioDocFields : List (String × Json) :=
  [("version", Json.str "1.0.0"),
   ("currentMonth", Json.str "2025-01"),
   ("pharmacists", Json.arr [Json.str "邱", Json.str "黃"]),
   ("schedule",
     Json.obj [("2025-01-01",
       Json.obj [("邱", Json.arr [Json.str "早"]), ("黃", Json.arr [Json.str "晚"])])]),
   ("notes", Json.obj []),
   ("savedAt", Json.str "2025-01-01T12:00:00.000Z")]

/-- The scenario document as a JSON value. -/
def scenarioDoc : Json := Json.obj scenarioDocFields

/-- The typed document the facade returns for `scenarioDoc`. -/
def scenarioData : SaveData :=
  { version := "1.0.0"
    currentMonth := "2025-01"
    pharmacists := ["邱", "黃"]
    schedule := [("2025-01-01", [("邱", ["早"]), ("黃", ["晚"])])]
    notes := []
    savedAt := "2025-01-01T12:00:00.000Z" }

/-- The scenario document with the version field removed (the guide's
`legacy` example document). -/
def scenarioDocNoVersion : Json := Json.obj (scenarioDocFields.drop 1)

/-- The scenario document redeclared as version 2.0.0. -/
def scenarioDocV2 : Json :=
  Json.obj (("version", Json.str "2.0.0") :: scenarioDocFields.drop 1)

/-- The four-worker roster list used by the concrete fairness scenarios. -/
def fourWorkers : List String := ["A", "B", "C", "D"]

/-- A roster for February 2026 (4 full weeks) that meets every required
headcount exactly and respects the Monday cap, but concentrates the load on
worker A: Mondays `A,B = 早午`, `C,D = 晚`; Tuesday through Friday
`A = 早午晚`, `B = 晚`; Saturdays `A = 早午晚`, `B = 早`; Sundays empty. -/
def exactSchedFeb2026 : Schedule :=
  (daysList 2026 2).filterMap (fun d =>
    match dayOfWeek 2026 2 d with
    | 0 => none
    | 1 => some (isoDate 2026 2 d,
        [("A", ["早", "午"]), ("B", ["早", "午"]), ("C", ["晚"]), ("D", ["晚"])])
    | 6 => some (isoDate 2026 2 d, [("A", ["早", "午", "晚"]), ("B", ["早"])])
    | _ => some (isoDate 2026 2 d, [("A", ["早", "午", "晚"]), ("B", ["晚"])]))

/-! ## Theorems -/

/-- C6: `getRequiredShifts` is a pure, total function of the weekday alone
and realises exactly the fixed policy table: Monday morning 2, midday 2,
evening 2 with per-person cap 2; Tuesday through Friday 1/1/2 with no cap;
Saturday 2/1/1 with no cap; Sunday 0/0/0 (rest day). -/
theorem getRequiredShifts_policy_table :
    getRequiredShifts 1 = ⟨2, 2, 2, some 2⟩ ∧
    getRequiredShifts 2 = ⟨1, 1, 2, none⟩ ∧
    getRequiredShifts 3 = ⟨1, 1, 2, none⟩ ∧
    getRequiredShifts 4 = ⟨1, 1, 2, none⟩ ∧
    getRequiredShifts 5 = ⟨1, 1, 2, none⟩ ∧
    getRequiredShifts 6 = ⟨2, 1, 1, none⟩ ∧
    getRequiredShifts 0 = ⟨0, 0, 0, none⟩ := by
  decide

/-- C7 counterexample: a document whose declared version equals the target
version for which `migrateToLatest` nevertheless fails.  With
`version = "" = target`, the falsy empty string is coerced to `"1.0.0"`,
which then compares greater than the parsed target `""` (major 1 vs major
0), so the call reports a downgrade instead of returning the document. -/
theorem migrateToLatest_empty_version_not_identity :
    lookupField [("version", Json.str "")] "version" = some (Json.str "") ∧
    migrateToLatest [("version", Json.str "")] "" =
      { success := false, data := none, error := some "無法從較新版本 1.0.0 降級到 " } :=
  ⟨rfl, rfl⟩

/-- C7 (amended): for every document whose declared version field is a
non-empty string equal to the target version, `migrateToLatest` succeeds and
returns the document unchanged.  (The empty string is excluded: it is falsy
and coerced to `"1.0.0"`, see the counterexample.) -/
theorem migrateToLatest_identity (kvs : List (String × Json)) (target : String)
    (hv : lookupField kvs "version" = some (Json.str target)) (hne : target ≠ "") :
    migrateToLatest kvs target =
      { success := true, data := some (Json.obj kvs), error := none } := by
  simp [migrateToLatest, versionOrDefault, hv, hne]

/-- C7 witness: the identity case at a concrete document already at version
1.2.0. -/
theorem migrateToLatest_identity_witness :
    migrateToLatest [("version", Json.str "1.2.0"), ("currentMonth", Json.str "2025-01")]
        "1.2.0" =
      { success := true
        data := some (Json.obj [("version", Json.str "1.2.0"), ("currentMonth", Json.str "2025-01")])
        error := none } :=
  migrateToLatest_identity _ "1.2.0" rfl (by decide)

/-- Rounding a natural number to a double yields a non-negative finite
value whenever it yields a finite value at all. -/
theorem roundToDouble_finite_nonneg (n : Nat) (v : Int)
    (h : roundToDouble n = JsNum.finite v) : 0 ≤ v := by
  unfold roundToDouble at h
  split at h
  · injection h with h; omega
  · split at h
    · cases h
    · injection h with h
      rw [← h]
      exact_mod_cast Nat.zero_le _

/-- Rounding a positive natural number to a double yields a value that is
still strictly greater than zero (possibly Infinity). -/
theorem roundToDouble_pos (n : Nat) (h : 0 < n) :
    gtZero (roundToDouble n) = true := by
  unfold roundToDouble
  split
  · simp only [gtZero, decide_eq_true_eq]
    exact_mod_cast h
  · split
    · rfl
    · rename_i h1 h2
      simp only [gtZero, decide_eq_true_eq]
      have hn0 : n ≠ 0 := by omega
      have hle : 2 ^ (n.log2 - 52) ≤ n := by
        calc 2 ^ (n.log2 - 52) ≤ 2 ^ n.log2 :=
              Nat.pow_le_pow_right (by omega) (by omega)
          _ ≤ n := Nat.log2_self_le hn0
      have hq : 1 ≤ n / 2 ^ (n.log2 - 52) :=
        (Nat.one_le_div_iff (Nat.pos_pow_of_pos _ (by omega))).mpr hle
      have hpow : 0 < 2 ^ (n.log2 - 52) := Nat.pos_pow_of_pos _ (by omega)
      have : 0 < (if n % 2 ^ (n.log2 - 52) > 2 ^ (n.log2 - 52 - 1) then
            n / 2 ^ (n.log2 - 52) + 1
          else if n % 2 ^ (n.log2 - 52) < 2 ^ (n.log2 - 52 - 1) then
            n / 2 ^ (n.log2 - 52)
          else if n / 2 ^ (n.log2 - 52) % 2 = 0 then n / 2 ^ (n.log2 - 52)
          else n / 2 ^ (n.log2 - 52) + 1) * 2 ^ (n.log2 - 52) := by
        split
        · exact Nat.mul_pos (by omega) hpow
        · split
          · exact Nat.mul_pos (by omega) hpow
          · split
            · exact Nat.mul_pos (by omega) hpow
            · exact Nat.mul_pos (by omega) hpow
      exact_mod_cast this

/-- The signed rounding of a strictly positive integer stays strictly
positive. -/
theorem roundIntToDouble_pos (z : Int) (h : 0 < z) :
    gtZero (roundIntToDouble z) = true := by
  unfold roundIntToDouble
  rw [if_pos (le_of_lt h)]
  exact roundToDouble_pos z.toNat (by omega)

/-- Every finite JS number produced by `jsNumber` is non-negative. -/
theorem jsNumber_nonneg (s : String) (v : Int) (h : jsNumber s = JsNum.finite v) :
    0 ≤ v := by
  unfold jsNumber at h
  split at h
  · injection h with h; omega
  · split at h
    · exact roundToDouble_finite_nonneg _ _ h
    · cases h

/-- The parsed major version of any version string is non-negative when it
is a finite number at all. -/
theorem parseVersion_major_nonneg (s : String) (v : Int)
    (h : (parseVersion s).major = JsNum.finite v) : 0 ≤ v :=
  jsNumber_nonneg _ _ h

/-- C8: for every document whose declared version field is a string whose
major version number strictly exceeds the target's major version number,
`migrateToLatest` fails with the "cannot downgrade" error (and, since the
embedding is purely functional and the source only spreads into fresh
objects, the input document is returned untouched: the result carries no
data). -/
theorem migrateToLatest_downgrade_error
    (kvs : List (String × Json)) (target s : String) (a b : Int)
    (hv : lookupField kvs "version" = some (Json.str s))
    (ha : (parseVersion s).major = JsNum.finite a)
    (hb : (parseVersion target).major = JsNum.finite b)
    (hab : b < a) :
    migrateToLatest kvs target =
      { success := false, data := none
        error := some ("無法從較新版本 " ++ s ++ " 降級到 " ++ target) } := by
  have hb0 : 0 ≤ b := parseVersion_major_nonneg _ _ hb
  have hs : s ≠ "" := by
    intro h
    rw [h] at ha
    have : (parseVersion "").major = JsNum.finite 0 := by decide
    rw [this] at ha
    injection ha with ha
    omega
  have hst : s ≠ target := by
    intro h
    rw [h] at ha
    rw [ha] at hb
    injection hb with hb
    omega
  have hfm : findMigration s target = none := by
    unfold findMigration
    have h1 : ¬(s = "1.0.0" ∧ target = "1.1.0") := by
      rintro ⟨rfl, rfl⟩
      have ha1 : (parseVersion "1.0.0").major = JsNum.finite 1 := by decide
      have hb1 : (parseVersion "1.1.0").major = JsNum.finite 1 := by decide
      rw [ha1] at ha; rw [hb1] at hb
      injection ha with ha; injection hb with hb
      omega
    have h2 : ¬(s = "1.1.0" ∧ target = "1.2.0") := by
      rintro ⟨rfl, rfl⟩
      have ha1 : (parseVersion "1.1.0").major = JsNum.finite 1 := by decide
      have hb1 : (parseVersion "1.2.0").major = JsNum.finite 1 := by decide
      rw [ha1] at ha; rw [hb1] at hb
      injection ha with ha; injection hb with hb
      omega
    have h3 : ¬(s = "1.0.0" ∧ target = "1.2.0") := by
      rintro ⟨rfl, rfl⟩
      have ha1 : (parseVersion "1.0.0").major = JsNum.finite 1 := by decide
      have hb1 : (parseVersion "1.2.0").major = JsNum.finite 1 := by decide
      rw [ha1] at ha; rw [hb1] at hb
      injection ha with ha; injection hb with hb
      omega
    simp [h1, h2, h3]
  have hcmp : gtZero (compareVersions (parseVersion s) (parseVersion target)) = true := by
    unfold compareVersions
    rw [ha, hb]
    have hne : a ≠ b := by omega
    have hneq : jsNeq (JsNum.finite a) (JsNum.finite b) = true := by
      simp [jsNeq, hne]
    rw [if_pos hneq]
    show gtZero (jsSub (JsNum.finite a) (JsNum.finite b)) = true
    simp only [jsSub]
    exact roundIntToDouble_pos _ (by omega)
  simp [migrateToLatest, versionOrDefault, hv, hs, hst, hfm, hcmp]

/-- C8 witness: a 2.0.0 document migrated toward 1.0.0 fails with the
downgrade error. -/
theorem migrateToLatest_downgrade_error_witness :
    migrateToLatest [("version", Json.str "2.0.0")] "1.0.0" =
      { success := false, data := none
        error := some ("無法從較新版本 " ++ "2.0.0" ++ " 降級到 " ++ "1.0.0") } :=
  migrateToLatest_downgrade_error _ "1.0.0" "2.0.0" 2 1 rfl (by decide) (by decide) (by decide)

/-- C9 counterexample: a stored empty-string snapshot.  Its bytes fail to
parse (`JSON.parse("")` throws, hence the oracle returning `none` is the
faithful one), so it falls under the claim, but the falsy `if (!saved)`
guard fires first: `loadAutoSave` returns the not-found error without
clearing the slot, and `hasAutoSave` stays true afterwards. -/
theorem loadAutoSave_empty_snapshot_kept :
    (loadAutoSave (fun _ => false) (fun _ => none) (some "")).1.success = false ∧
    (loadAutoSave (fun _ => false) (fun _ => none) (some "")).1.errors = ["沒有找到自動存檔"] ∧
    (loadAutoSave (fun _ => false) (fun _ => none) (some "")).2 = some "" ∧
    hasAutoSave (loadAutoSave (fun _ => false) (fun _ => none) (some "")).2 = true :=
  ⟨rfl, rfl, rfl, rfl⟩

/-- C9 (amended): a stored non-empty auto-snapshot whose bytes fail to
parse or whose content fails validation makes `loadAutoSave` return failure
and clear the slot, so that `hasAutoSave` is false immediately afterwards.
(A stored empty-string snapshot is instead caught by the falsy
`if (!saved)` guard and left in place, see the counterexample.) -/
theorem loadAutoSave_corrupt_clears_slot
    (isStale : String → Bool) (parseJson : String → Option Json) (s : String)
    (hne : s ≠ "")
    (hbad : ∀ j, parseJson s = some j → (validateSaveData isStale j).isValid = false) :
    (loadAutoSave isStale parseJson (some s)).1.success = false ∧
    (loadAutoSave isStale parseJson (some s)).2 = none ∧
    hasAutoSave (loadAutoSave isStale parseJson (some s)).2 = false := by
  cases hp : parseJson s with
  | none => simp [loadAutoSave, hp, hasAutoSave, hne]
  | some j => simp [loadAutoSave, hp, hasAutoSave, hne, hbad j hp]

/-- C9 witness: a slot holding non-empty unparseable bytes is cleared by
`loadAutoSave`. -/
theorem loadAutoSave_corrupt_clears_slot_witness :
    (loadAutoSave (fun _ => false) (fun _ => none) (some "corrupt")).1.success = false ∧
    (loadAutoSave (fun _ => false) (fun _ => none) (some "corrupt")).2 = none ∧
    hasAutoSave (loadAutoSave (fun _ => false) (fun _ => none) (some "corrupt")).2 = false :=
  loadAutoSave_corrupt_clears_slot (fun _ => false) (fun _ => none) "corrupt"
    (by decide) (fun _ h => by cases h)

/-- C1 counterexample: on the spec's concrete scenario document the facade
does validate successfully, but the document is not migrated (it stays at
version 1.0.0, hence without a metadata block, which the strict current
schema would reject anyway) and no silent-upgrade warning is issued: with a
non-stale clock the warning list is empty rather than a singleton. -/
theorem scenario_not_migrated :
    (validateSaveData (fun _ => false) scenarioDoc).isValid = true ∧
    (validateSaveData (fun _ => false) scenarioDoc).warnings = [] ∧
    (validateSaveData (fun _ => false) scenarioDoc).data.map SaveData.version = some "1.0.0" := by
  refine ⟨by decide, by decide, by decide⟩

/-- C1 (amended): the scenario document validates with zero errors, but the
facade's migration target is pinned to 1.0.0, so the document is returned
unchanged at version 1.0.0 with no metadata block and no upgrade warning;
the only possible warning is the advisory staleness notice (the roster is
non-empty). -/
theorem validateSaveData_scenario (isStale : String → Bool) :
    validateSaveData isStale scenarioDoc =
      { isValid := true, errors := []
        warnings := if isStale "2025-01-01T12:00:00.000Z" then [staleMsg] else []
        data := some scenarioData } :=
  rfl

/-- A document whose top-level object lacks a version field always fails
`SaveDataSchema.safeParse` (the required `version` issue is raised). -/
theorem saveDataSafeParse_missing_version (kvs : List (String × Json))
    (hv : lookupField kvs "version" = none) :
    saveDataSafeParse (Json.obj kvs) = Except.error (saveDataIssues kvs) := by
  have hissue : saveDataIssues kvs =
      (["version"], "Required") ::
        (issuesMonth kvs ++ issuesPharmacists kvs ++ issuesSchedule kvs ++
          issuesNotes kvs ++ issuesSavedAt kvs ++ issuesStrict kvs) := by
    unfold saveDataIssues issuesVersion
    rw [hv]
    simp
  simp only [saveDataSafeParse, hissue]

/-- C2 counterexample: the facade does not treat a version-less document as
an implicitly declared 1.0.0 document, it rejects it outright: the guide's
`legacy` example document is invalid as-is, yet the very same document with
`version: "1.0.0"` added is valid. -/
theorem missing_version_not_treated_as_100 :
    (validateSaveData (fun _ => false) scenarioDocNoVersion).isValid = false ∧
    (validateSaveData (fun _ => false) scenarioDoc).isValid = true ∧
    scenarioDoc = Json.obj (("version", Json.str "1.0.0") :: scenarioDocFields.drop 1) :=
  ⟨by decide, by decide, rfl⟩

/-- C2 (amended): a parsed document object with no version field at all
skips the legacy/migration path entirely (the `'version' in data` guard
fails) and is validated directly against the strict current schema, which
rejects it because `version` is required — rather than being treated as
version 1.0.0. -/
theorem validateSaveData_missing_version_rejected
    (isStale : String → Bool) (kvs : List (String × Json))
    (hv : lookupField kvs "version" = none) :
    validateSaveData isStale (Json.obj kvs) = directValidate isStale (Json.obj kvs) ∧
    (validateSaveData isStale (Json.obj kvs)).isValid = false := by
  have h1 : validateSaveData isStale (Json.obj kvs) = directValidate isStale (Json.obj kvs) := by
    simp only [validateSaveData, hv, Option.isSome_none, Bool.false_eq_true, if_false]
  refine ⟨h1, ?_⟩
  rw [h1]
  simp only [directValidate, saveDataSafeParse_missing_version kvs hv]

/-- C2 witness: the version-less legacy example document is rejected by the
direct strict validation. -/
theorem validateSaveData_missing_version_rejected_witness :
    validateSaveData (fun _ => false) scenarioDocNoVersion =
      directValidate (fun _ => false) scenarioDocNoVersion ∧
    (validateSaveData (fun _ => false) scenarioDocNoVersion).isValid = false :=
  validateSaveData_missing_version_rejected (fun _ => false) (scenarioDocFields.drop 1) rfl

/-- C3 counterexample: for the 2.0.0 document the facade indeed returns
failure with exactly one error and no warnings, but the error is the
unsupported-version message wrapped as a legacy-format error, not the
`version-incompatible` message of `checkVersionCompatibility` (which the
facade never calls). -/
theorem v2_error_not_version_incompatible :
    (validateSaveData (fun _ => false) scenarioDocV2).isValid = false ∧
    (validateSaveData (fun _ => false) scenarioDocV2).errors.length = 1 ∧
    (validateSaveData (fun _ => false) scenarioDocV2).warnings = [] ∧
    (checkVersionCompatibility "2.0.0").message =
      some "存檔版本 2.0.0 與當前版本 1.0.0 不相容" ∧
    (validateSaveData (fun _ => false) scenarioDocV2).errors ≠
      ["存檔版本 2.0.0 與當前版本 1.0.0 不相容"] := by
  refine ⟨by decide, by decide, by decide, by decide, by decide⟩

/-- C3 (amended): every document declaring version 2.0.0 yields
`isValid: false` with the single unsupported-version error (wrapped by the
facade as a legacy-format error) and an empty warning list. -/
theorem validateSaveData_v2_unsupported
    (isStale : String → Bool) (kvs : List (String × Json))
    (hv : lookupField kvs "version" = some (Json.str "2.0.0")) :
    validateSaveData isStale (Json.obj kvs) =
      { isValid := false, errors := ["舊版本資料格式錯誤: 不支援的版本: 2.0.0"]
        warnings := [], data := none } := by
  have hleg : validateLegacyData kvs = ⟨"2.0.0", false, ["不支援的版本: 2.0.0"]⟩ := by
    unfold validateLegacyData
    rw [hv]
    rfl
  simp only [validateSaveData, hv, hleg, Option.isSome_some, if_true]
  rfl

/-- C3 witness: the concrete 2.0.0 document produces exactly the wrapped
unsupported-version error. -/
theorem validateSaveData_v2_unsupported_witness :
    validateSaveData (fun _ => false) scenarioDocV2 =
      { isValid := false, errors := ["舊版本資料格式錯誤: 不支援的版本: 2.0.0"]
        warnings := [], data := none } :=
  validateSaveData_v2_unsupported (fun _ => false)
    (("version", Json.str "2.0.0") :: scenarioDocFields.drop 1) rfl

/-- A chain of five conditional singleton blocks is non-empty exactly when
one of the conditions fires. -/
theorem ite_blocks_ne_nil (b1 b2 b3 b4 b5 : Bool) (m1 m2 m3 m4 m5 : String) :
    ((if b1 then [m1] else []) ++ (if b2 then [m2] else []) ++ (if b3 then [m3] else []) ++
        (if b4 then [m4] else []) ++ (if b5 then [m5] else []) ≠ []) ↔
      (b1 = true ∨ b2 = true ∨ b3 = true ∨ b4 = true ∨ b5 = true) := by
  cases b1 <;> cases b2 <;> cases b3 <;> cases b4 <;> cases b5 <;> simp

/-- C4 counterexample: with the single-worker list `["A"]` and an empty
January 2025 roster, the fairness stage emits `A假期天數不平均` (A's 31
holidays deviate from the hard-coded quarter of the total, 31/4), although
A's statistics deviate from the arithmetic mean across all listed workers by
exactly 0, so the claimed mean-based condition does not hold. -/
theorem fairness_mean_counterexample :
    "A" ∈ ["A"] ∧
    "A假期天數不平均" ∈ checkViolations 2025 1 [] ["A"] ∧
    specFairnessDeviates 2025 1 [] ["A"] "A" = false :=
  ⟨by decide, by decide, by decide⟩

/-- C4 (amended): the fairness stage emits a violation for a listed worker
exactly when one of the worker's five tracked quantities (days off, total
periods, morning+evening days, Monday days off, Saturday days off) deviates
from one quarter of that quantity's total over the stats table (the source
divides by the constant 4, the default roster size, not by the worker count)
by strictly more than the thresholds 2, 3, 1, 1, 1 respectively. -/
theorem fairnessFor_emission_iff (year month : Nat) (schedule : Schedule)
    (pharmacists : List String) (p : String) (_hp : p ∈ pharmacists) :
    (fairnessFor (calculateStats year month schedule pharmacists) p ≠ [] ↔
      (deviatesFromQuarter
          ((assocGet (calculateStats year month schedule pharmacists) p).getD emptyStats).holidays
          (sumBy (calculateStats year month schedule pharmacists) PharmacistStats.holidays) 2 = true ∨
        deviatesFromQuarter
          ((assocGet (calculateStats year month schedule pharmacists) p).getD emptyStats).shifts
          (sumBy (calculateStats year month schedule pharmacists) PharmacistStats.shifts) 3 = true ∨
        deviatesFromQuarter
          ((assocGet (calculateStats year month schedule pharmacists) p).getD emptyStats).morningEveningDays
          (sumBy (calculateStats year month schedule pharmacists) PharmacistStats.morningEveningDays) 1 = true ∨
        deviatesFromQuarter
          ((assocGet (calculateStats year month schedule pharmacists) p).getD emptyStats).mondayHolidays
          (sumBy (calculateStats year month schedule pharmacists) PharmacistStats.mondayHolidays) 1 = true ∨
        deviatesFromQuarter
          ((assocGet (calculateStats year month schedule pharmacists) p).getD emptyStats).saturdayHolidays
          (sumBy (calculateStats year month schedule pharmacists) PharmacistStats.saturdayHolidays) 1 = true)) := by
  simp only [fairnessFor]
  exact ite_blocks_ne_nil _ _ _ _ _ _ _ _ _ _

/-- C4 witness: the emission criterion instantiated at the single-worker
empty-roster scenario. -/
theorem fairnessFor_emission_iff_witness :
    (fairnessFor (calculateStats 2025 1 [] ["A"]) "A" ≠ [] ↔
      (deviatesFromQuarter
          ((assocGet (calculateStats 2025 1 [] ["A"]) "A").getD emptyStats).holidays
          (sumBy (calculateStats 2025 1 [] ["A"]) PharmacistStats.holidays) 2 = true ∨
        deviatesFromQuarter
          ((assocGet (calculateStats 2025 1 [] ["A"]) "A").getD emptyStats).shifts
          (sumBy (calculateStats 2025 1 [] ["A"]) PharmacistStats.shifts) 3 = true ∨
        deviatesFromQuarter
          ((assocGet (calculateStats 2025 1 [] ["A"]) "A").getD emptyStats).morningEveningDays
          (sumBy (calculateStats 2025 1 [] ["A"]) PharmacistStats.morningEveningDays) 1 = true ∨
        deviatesFromQuarter
          ((assocGet (calculateStats 2025 1 [] ["A"]) "A").getD emptyStats).mondayHolidays
          (sumBy (calculateStats 2025 1 [] ["A"]) PharmacistStats.mondayHolidays) 1 = true ∨
        deviatesFromQuarter
          ((assocGet (calculateStats 2025 1 [] ["A"]) "A").getD emptyStats).saturdayHolidays
          (sumBy (calculateStats 2025 1 [] ["A"]) PharmacistStats.saturdayHolidays) 1 = true)) :=
  fairnessFor_emission_iff 2025 1 [] ["A"] "A" (by decide)

/-- One per-period staffing block vanishes when the requirement is zero or
met exactly. -/
theorem ite_staffing_nil (rc actual : Nat) (msg : List String)
    (h : rc = 0 ∨ actual = rc) :
    (if rc > 0 then (if actual ≠ rc then msg else []) else []) = [] := by
  rcases h with h | h <;> simp [h]

/-- A day that meets the exact staffing requirements and the Monday cap
produces no per-day violations. -/
theorem dayMeets_no_violations (year month d : Nat) (schedule : Schedule)
    (pharmacists : List String)
    (h : dayMeetsRequirements year month d schedule pharmacists = true) :
    dayViolations year month d schedule pharmacists = [] := by
  simp only [dayViolations]
  simp only [dayMeetsRequirements] at h
  by_cases h0 : dayOfWeek year month d = 0
  · rw [if_pos h0]
  · rw [if_neg h0] at h ⊢
    rw [Bool.and_eq_true] at h
    obtain ⟨hstaff, hcap⟩ := h
    simp only [List.all_cons, List.all_nil, Bool.and_eq_true, Bool.and_true] at hstaff
    obtain ⟨hm, ha, he⟩ := hstaff
    rw [Bool.or_eq_true, decide_eq_true_eq, decide_eq_true_eq] at hm ha he
    simp only [List.map_cons, List.map_nil, List.flatten_cons, List.flatten_nil]
    rw [ite_staffing_nil _ _ _ hm, ite_staffing_nil _ _ _ ha, ite_staffing_nil _ _ _ he]
    simp only [List.nil_append, List.append_nil]
    by_cases h1 : dayOfWeek year month d = 1
    · rw [if_pos h1] at hcap ⊢
      rw [List.flatten_eq_nil_iff]
      intro l hl
      rw [List.mem_map] at hl
      obtain ⟨p, hp, rfl⟩ := hl
      rw [List.all_eq_true] at hcap
      have hlen := hcap p hp
      rw [decide_eq_true_eq] at hlen
      rw [if_neg (by omega)]
    · rw [if_neg h1]

/-- C5 counterexample: a February 2026 roster that satisfies every required
headcount exactly and respects the Monday cap, for which `checkViolations`
is nevertheless non-empty — the fairness stage still fires because the load
is concentrated on worker A. -/
theorem exact_roster_violations_nonempty :
    meetsRequirements 2026 2 exactSchedFeb2026 fourWorkers = true ∧
    checkViolations 2026 2 exactSchedFeb2026 fourWorkers ≠ [] :=
  ⟨by decide, by decide⟩

/-- C5 (amended): for a roster meeting the exact required headcounts and the
Monday cap on every non-Sunday day of the month, the per-day stage of
`checkViolations` contributes nothing: every violation it returns comes from
the fairness stage (and the result is empty only when that stage is silent
too). -/
theorem meetsRequirements_only_fairness (year month : Nat) (schedule : Schedule)
    (pharmacists : List String)
    (h : meetsRequirements year month schedule pharmacists = true) :
    checkViolations year month schedule pharmacists =
      fairnessViolations year month schedule pharmacists := by
  unfold checkViolations
  have hper : perDayViolations year month schedule pharmacists = [] := by
    unfold perDayViolations
    rw [List.flatten_eq_nil_iff]
    intro l hl
    rw [List.mem_map] at hl
    obtain ⟨dd, hd, rfl⟩ := hl
    unfold meetsRequirements at h
    rw [List.all_eq_true] at h
    exact dayMeets_no_violations _ _ _ _ _ (h dd hd)
  rw [hper, List.nil_append]

/-- C5 witness: on the exact February 2026 roster the violation list equals
exactly the fairness-stage output. -/
theorem meetsRequirements_only_fairness_witness :
    checkViolations 2026 2 exactSchedFeb2026 fourWorkers =
      fairnessViolations 2026 2 exactSchedFeb2026 fourWorkers :=
  meetsRequirements_only_fairness 2026 2 exactSchedFeb2026 fourWorkers (by decide)

/-- `directValidate` on a document the strict schema rejects. -/
theorem directValidate_err (isStale : String → Bool) (data : Json) (iss : List Issue)
    (hp : saveDataSafeParse data = Except.error iss) :
    directValidate isStale data =
      { isValid := false, errors := iss.map renderIssueWithPath, warnings := [], data := none } := by
  simp only [directValidate, hp]

/-- `directValidate` on a document the strict schema accepts. -/
theorem directValidate_ok (isStale : String → Bool) (data : Json) (sd : SaveData)
    (hp : saveDataSafeParse data = Except.ok sd) :
    directValidate isStale data =
      { isValid := true, errors := []
        warnings :=
          (if sd.schedule.isEmpty then [emptyScheduleMsg] else []) ++
            (if isStale sd.savedAt then [staleMsg] else [])
        data := some sd } := by
  simp only [directValidate, hp]

/-- The silent-upgrade warning starts with the character `資`. -/
theorem upgradeMsg_head (a b : String) : (upgradeMsg a b).data.head? = some '資' := rfl

/-- The silent-upgrade warning is distinct from both advisory warnings
(their first characters differ). -/
theorem upgradeMsg_ne_advisories (a b : String) :
    upgradeMsg a b ≠ emptyScheduleMsg ∧ upgradeMsg a b ≠ staleMsg := by
  refine ⟨fun h => ?_, fun h => ?_⟩ <;>
    · have h2 := congrArg (fun s => s.data.head?) h
      simp only [upgradeMsg_head] at h2
      exact absurd h2 (by decide)

/-- The silent-upgrade warning never occurs among the advisory warnings. -/
theorem upgradeMsg_not_advisory (a b : String) (l1 l2 : Bool) :
    upgradeMsg a b ∉
      ((if l1 then [emptyScheduleMsg] else []) ++ (if l2 then [staleMsg] else [])) := by
  have h1 := (upgradeMsg_ne_advisories a b).1
  have h2 := (upgradeMsg_ne_advisories a b).2
  cases l1 <;> cases l2 <;> simp [h1, h2]

/-- A document passing `validateLegacyData` declares one of the three
registered version strings (non-string version fields fall back to the
1.0.0 schema, which itself requires the field to be a string). -/
theorem legacy_valid_version (kvs : List (String × Json))
    (h : (validateLegacyData kvs).isValid = true) :
    lookupField kvs "version" = some (Json.str "1.0.0") ∨
    lookupField kvs "version" = some (Json.str "1.1.0") ∨
    lookupField kvs "version" = some (Json.str "1.2.0") := by
  unfold validateLegacyData at h
  cases hv : lookupField kvs "version" with
  | none =>
    have hc : checkV100 kvs = false := by
      unfold checkV100 legacyBaseOk fieldIs
      simp [hv]
    simp [hv, hc] at h
  | some j =>
    cases j with
    | str s =>
      by_cases h1 : s = "1.0.0"
      · subst h1; exact Or.inl rfl
      · by_cases h2 : s = "1.1.0"
        · subst h2; exact Or.inr (Or.inl rfl)
        · by_cases h3 : s = "1.2.0"
          · subst h3; exact Or.inr (Or.inr rfl)
          · exfalso
            simp only [hv] at h
            rw [if_neg h1, if_neg h2, if_neg h3] at h
            simp at h
    | null =>
      have hc : checkV100 kvs = false := by
        unfold checkV100 legacyBaseOk fieldIs
        simp [hv]
      simp [hv, hc] at h
    | bool b =>
      have hc : checkV100 kvs = false := by
        unfold checkV100 legacyBaseOk fieldIs
        simp [hv]
      simp [hv, hc] at h
    | num n =>
      have hc : checkV100 kvs = false := by
        unfold checkV100 legacyBaseOk fieldIs
        simp [hv]
      simp [hv, hc] at h
    | arr l =>
      have hc : checkV100 kvs = false := by
        unfold checkV100 legacyBaseOk fieldIs
        simp [hv]
      simp [hv, hc] at h
    | obj fields =>
      have hc : checkV100 kvs = false := by
        unfold checkV100 legacyBaseOk fieldIs
        simp [hv]
      simp [hv, hc] at h

/-- Migration toward the facade's pinned target 1.0.0 always fails for the
two newer registered versions: there is no registered edge toward 1.0.0 and
the version comparison reports a downgrade. -/
theorem migrate_to_100_fails (kvs : List (String × Json)) (v : String)
    (hv : lookupField kvs "version" = some (Json.str v))
    (h : v = "1.1.0" ∨ v = "1.2.0") :
    migrateToLatest kvs "1.0.0" =
      { success := false, data := none
        error := some ("無法從較新版本 " ++ v ++ " 降級到 " ++ "1.0.0") } := by
  rcases h with rfl | rfl <;>
    · simp only [migrateToLatest, versionOrDefault, hv]
      rfl

/-- C10: the facade's internal migration target is the string 1.0.0, so (a)
a document is accepted only if it declares exactly version 1.0.0 and passes
the strict current schema, and (b) the silent-upgrade warning is unreachable
for every input and every staleness oracle. -/
theorem validateSaveData_pinned_target (isStale : String → Bool) (data : Json) :
    ((validateSaveData isStale data).isValid = true →
      ∃ kvs, data = Json.obj kvs ∧
        lookupField kvs "version" = some (Json.str "1.0.0") ∧
        ∃ sd, saveDataSafeParse data = Except.ok sd) ∧
    (∀ a b, upgradeMsg a b ∉ (validateSaveData isStale data).warnings) := by
  have handle_err : ∀ iss, validateSaveData isStale data =
      { isValid := false, errors := iss, warnings := [], data := none } →
      ((validateSaveData isStale data).isValid = true →
        ∃ kvs, data = Json.obj kvs ∧
          lookupField kvs "version" = some (Json.str "1.0.0") ∧
          ∃ sd, saveDataSafeParse data = Except.ok sd) ∧
      (∀ a b, upgradeMsg a b ∉ (validateSaveData isStale data).warnings) := by
    intro iss heq
    rw [heq]
    exact ⟨fun h => by simp at h, fun a b => by simp⟩
  cases data with
  | null => exact handle_err _ rfl
  | bool b => exact handle_err _ rfl
  | num n => exact handle_err _ rfl
  | str s => exact handle_err _ rfl
  | arr l => exact handle_err _ rfl
  | obj kvs =>
    by_cases hv : (lookupField kvs "version").isSome
    case neg =>
      have hvn : lookupField kvs "version" = none := Option.not_isSome_iff_eq_none.mp hv
      have heq : validateSaveData isStale (Json.obj kvs) =
          directValidate isStale (Json.obj kvs) := by
        simp only [validateSaveData, hvn, Option.isSome_none, Bool.false_eq_true, if_false]
      have herr := directValidate_err isStale _ _ (saveDataSafeParse_missing_version kvs hvn)
      exact handle_err _ (heq.trans herr)
    case pos =>
      by_cases hleg : (validateLegacyData kvs).isValid
      case neg =>
        have hlegf : (validateLegacyData kvs).isValid = false := by
          cases hx : (validateLegacyData kvs).isValid
          · rfl
          · exact absurd hx hleg
        exact handle_err
          ["舊版本資料格式錯誤: " ++ String.intercalate ", " (validateLegacyData kvs).errors]
          (by simp only [validateSaveData, hv, if_true, hlegf, Bool.false_eq_true, if_false])
      case pos =>
        rcases legacy_valid_version kvs hleg with h100 | h110 | h120
        · have heq : validateSaveData isStale (Json.obj kvs) =
              directValidate isStale (Json.obj kvs) := by
            simp [validateSaveData, hv, hleg, h100]
          obtain ⟨r, hp⟩ : ∃ r, saveDataSafeParse (Json.obj kvs) = r := ⟨_, rfl⟩
          cases r with
          | error iss =>
            exact handle_err _ (heq.trans (directValidate_err isStale _ iss hp))
          | ok sd =>
            rw [heq, directValidate_ok isStale _ sd hp]
            constructor
            · intro _
              exact ⟨kvs, rfl, h100, sd, hp⟩
            · intro a b
              exact upgradeMsg_not_advisory a b _ _
        · have hmig := migrate_to_100_fails kvs "1.1.0" h110 (Or.inl rfl)
          exact handle_err
            ["版本遷移失敗: " ++ ("無法從較新版本 " ++ "1.1.0" ++ " 降級到 " ++ "1.0.0")]
            (by simp only [validateSaveData, hv, if_true, hleg, h110, hmig]; rfl)
        · have hmig := migrate_to_100_fails kvs "1.2.0" h120 (Or.inr rfl)
          exact handle_err
            ["版本遷移失敗: " ++ ("無法從較新版本 " ++ "1.2.0" ++ " 降級到 " ++ "1.0.0")]
            (by simp only [validateSaveData, hv, if_true, hleg, h120, hmig]; rfl)

/-- C10 witness: the only accepted shape, exercised on the concrete 1.0.0
scenario document. -/
theorem validateSaveData_pinned_target_witness :
    ∃ kvs, scenarioDoc = Json.obj kvs ∧
      lookupField kvs "version" = some (Json.str "1.0.0") ∧
      ∃ sd, saveDataSafeParse scenarioDoc = Except.ok sd :=
  (validateSaveData_pinned_target (fun _ => false) scenarioDoc).1 (by decide)

end PharmSched
